import Mathlib

/-!
Verification of the answer-scoring and session-lifecycle engine of the
prep-ai backend (interview-preparation platform).

This file is a shallow embedding, in Lean 4, of the parts of the TypeScript
source that drive a practice session from answer submission through scoring
and completion:

* `src/services/ai.service.ts` — the heuristic free-text scoring engine
  (`AIService.simulateAIAnalysis` and its helper score functions);
* `src/models/Test.ts` — the test-session data model with its instance
  methods `checkAnswer`, `addAnswer`, and the pre-save recomputation hook;
* `src/controllers/test.controller.ts` — `TestController.submitAnswer` and
  `TestController.completeTest`;
* `src/models/Interview.ts` — the interview-session data model with its
  virtuals (`answeredQuestions`, `completionRate`, …), instance methods
  (`calculateOverallScore`, `generateFeedback`, …) and pre-save hook;
* the `InterviewController` (`submitAnswer`, `completeInterview`).

Modelling conventions: JavaScript numbers are modelled as exact rationals
(`ℚ`) or integers (`ℤ`/`ℕ`); a JavaScript computation that produces `NaN`
(division by zero) is modelled as `Option` with `none` for `NaN`, since in
JS every arithmetic operation and `Math.min`/`Math.max`/`Math.round`
propagate `NaN`.  `Math.round` is round-half-up.  Strings are Lean strings
(the sources and all concrete inputs used here are ASCII, where JS UTF-16
`length`, `toLowerCase`, `trim` and `includes` agree with the definitions
below).  Persistence (`save()`) is modelled by applying the schema's
pre-save middleware to the record; database lookups are modelled by passing
the fetched record directly to the controller function.
-/

namespace PrepAI

/-- JS `Math.round`: rounds half toward positive infinity. -/
def jsRound (q : ℚ) : ℤ := ⌊q + 1/2⌋

/-- Whitespace characters as recognised by the JS regex class `\s` and by
`String.prototype.trim` (ASCII part). -/
def jsIsSpace (c : Char) : Bool :=
  c == ' ' || c == '\t' || c == '\n' || c == '\r' ||
  c == Char.ofNat 11 || c == Char.ofNat 12

/-- JS word characters (`\w` regex class): letters, digits, underscore. -/
def jsIsWordChar (c : Char) : Bool := c.isAlphanum || c == '_'

/-- List-level check that `s` starts with `pre`. -/
def startsWithList : List Char → List Char → Bool
  | _, [] => true
  | [], _ :: _ => false
  | c :: cs, d :: ds => c == d && startsWithList cs ds

/-- List-level substring containment. -/
def hasSubstr : List Char → List Char → Bool
  | [], sub => sub.isEmpty
  | s@(_ :: rest), sub => startsWithList s sub || hasSubstr rest sub

/-- JS `String.prototype.includes`. -/
def jsIncludes (s sub : String) : Bool := hasSubstr s.data sub.data

/-- JS `String.prototype.toLowerCase` (ASCII). -/
def jsToLower (s : String) : String := ⟨s.data.map Char.toLower⟩

/-- JS `String.prototype.trim`. -/
def jsTrim (s : String) : String :=
  ⟨((s.data.dropWhile jsIsSpace).reverse.dropWhile jsIsSpace).reverse⟩

/-- JS `str.replace(/\s+/g, '')`: drop all whitespace. -/
def removeWhitespace (s : String) : String :=
  ⟨s.data.filter (fun c => !jsIsSpace c)⟩

/-- JS `str.slice(0, -1)`: drop the last character. -/
def dropLastChar (s : String) : String := ⟨s.data.dropLast⟩

/-- JS `str.replace(/[^\w\s]/g, '')`: keep only word characters and
whitespace. -/
def stripNonWordNonSpace (s : String) : String :=
  ⟨s.data.filter (fun c => jsIsWordChar c || jsIsSpace c)⟩

/-- JS `str.split(' ')` on a list of characters: split at every single
space, keeping empty pieces; splitting the empty string yields `[[]]`. -/
def splitSpaceList : List Char → List (List Char)
  | [] => [[]]
  | c :: rest =>
    let r := splitSpaceList rest
    if c == ' ' then [] :: r
    else
      match r with
      | [] => [[c]]
      | w :: ws => (c :: w) :: ws

/-- JS `str.split(' ')`. -/
def jsSplitSpace (s : String) : List String :=
  (splitSpaceList s.data).map (fun l => ⟨l⟩)

/-! ## The scoring engine: `src/services/ai.service.ts`

`AIService.simulateAIAnalysis` computes, for a free-text submission, a
keyword score, a clarity score, a completeness score, a relevance score,
and the weighted overall score `round(0.4·kw + 0.3·cl + 0.2·co + 0.1·re)`
clamped by `Math.min(100, Math.max(0, ·))`. -/

namespace AIService

/-- The fixed technical vocabulary of `calculateClarityScore`. -/
def technicalTerms : List String :=
  ["algorithm", "data structure", "optimization", "complexity", "implementation"]

/-- `AIService.getKeywordVariations`: the keyword itself, its
whitespace-free form when it contains a space, and its singular/plural
variant. -/
def getKeywordVariations (keyword : String) : List String :=
  let v1 := [keyword]
  let v2 := if jsIncludes keyword " " then v1 ++ [removeWhitespace keyword] else v1
  if keyword.endsWith "s" then v2 ++ [dropLastChar keyword] else v2 ++ [keyword ++ "s"]

/-- `AIService.containsKeyword`: the answer contains some variation of the
keyword. -/
def containsKeyword (answer keyword : String) : Bool :=
  (getKeywordVariations keyword).any (fun v => jsIncludes answer v)

/-- `AIService.calculateKeywordMatches`: number of expected keywords
(lower-cased) found in the lower-cased answer. -/
def calculateKeywordMatches (answer : String) (keywords : List String) : ℕ :=
  (keywords.filter (fun keyword => containsKeyword (jsToLower answer) (jsToLower keyword))).length

/-- `AIService.calculateClarityScore`: baseline 50, length bonuses,
punctuation/connective bonuses, +5 per matched technical term, capped at
100. -/
def calculateClarityScore (answer : String) : ℚ :=
  let s1 : ℚ := 50 + (if answer.length > 100 then 20 else if answer.length > 50 then 10 else 0)
  let s2 := s1 + (if jsIncludes answer "." then 10 else 0)
  let s3 := s2 + (if jsIncludes answer "," then 5 else 0)
  let s4 := s3 + (if jsIncludes answer "because" || jsIncludes answer "therefore" then 10 else 0)
  let technicalCount := (technicalTerms.filter (fun term => jsIncludes (jsToLower answer) term)).length
  min 100 (s4 + 5 * technicalCount)

/-- `AIService.calculateCompletenessScore`: baseline 50 plus ratio and
question-shape bonuses, capped at 100.  `split(' ')` never yields an empty
list, so the word-count ratio is always well defined. -/
def calculateCompletenessScore (answer question : String) : ℚ :=
  let questionWords := (jsSplitSpace question).length
  let answerWords := (jsSplitSpace answer).length
  let ratio : ℚ := (answerWords : ℚ) / (questionWords : ℚ)
  let s1 : ℚ := 50 + (if ratio > 2 then 20 else if ratio > 1 then 10 else 0)
  let s2 := s1 + (if jsIncludes question "explain" && decide (answer.length > 100) then 15 else 0)
  let s3 := s2 + (if jsIncludes question "describe" && jsIncludes answer "step" then 15 else 0)
  let s4 := s3 + (if jsIncludes question "compare" && jsIncludes answer "vs" then 15 else 0)
  min 100 s4

/-- The salient terms of the question used by `calculateRelevanceScore`:
lower-case, strip non-word punctuation, split on spaces, keep tokens longer
than 3 characters. -/
def questionSalientTerms (question : String) : List String :=
  (jsSplitSpace (stripNonWordNonSpace (jsToLower question))).filter (fun term => term.length > 3)

/-- Number of salient question terms that literally appear in the
lower-cased answer. -/
def addressedTermCount (answer question : String) : ℕ :=
  ((questionSalientTerms question).filter (fun term => jsIncludes (jsToLower answer) term)).length

/-- `AIService.calculateRelevanceScore`, with `none` for the JS `NaN`
produced by `addressedTerms / questionTerms.length` when the question has
no salient term. -/
def calculateRelevanceScore (answer question : String) : Option ℚ :=
  let terms := questionSalientTerms question
  if terms.length = 0 then none
  else some (min 100 (50 + ((addressedTermCount answer question : ℚ) / (terms.length : ℚ)) * 30))

/-- The value of the relevance score when it is defined. -/
def relevanceScoreVal (answer question : String) : ℚ :=
  min 100 (50 + ((addressedTermCount answer question : ℚ) / ((questionSalientTerms question).length : ℚ)) * 30)

/-- The keyword score `(matches / expected_keywords.length) * 100`, with
`none` for the JS `NaN` produced when `expected_keywords` is empty. -/
def keywordScore (answer : String) (keywords : List String) : Option ℚ :=
  if keywords.length = 0 then none
  else some (((calculateKeywordMatches answer keywords : ℚ) / (keywords.length : ℚ)) * 100)

/-- The value of the keyword score when it is defined. -/
def keywordScoreVal (answer : String) (keywords : List String) : ℚ :=
  ((calculateKeywordMatches answer keywords : ℚ) / ((keywords.length : ℚ))) * 100

/-- The overall score `Math.round(kw*0.4 + clarity*0.3 + completeness*0.2 +
relevance*0.1)` of `simulateAIAnalysis`; `none` models the `NaN` that
arises when the keyword score or the relevance score is `NaN`. -/
def overallScore (answer question : String) (keywords : List String) : Option ℤ :=
  match keywordScore answer keywords, calculateRelevanceScore answer question with
  | some kw, some re =>
    some (jsRound (kw * (4/10) + calculateClarityScore answer * (3/10) +
      calculateCompletenessScore answer question * (2/10) + re * (1/10)))
  | _, _ => none

/-- The `score` field returned by `AIService.simulateAIAnalysis`:
`Math.min(100, Math.max(0, overallScore))` (both propagate `NaN`). -/
def simulateAIAnalysisScore (answer question : String) (keywords : List String) : Option ℤ :=
  (overallScore answer question keywords).map (fun o => min 100 (max 0 o))

/-- The `confidence_level` field of `simulateAIAnalysis`. -/
def calculateConfidenceLevel (score : ℤ) (answerLength : ℕ) : ℤ :=
  let confidence := score + (if answerLength > 200 then 10 else if answerLength < 50 then (-20) else 0)
  min 100 (max 0 confidence)

end AIService

/-! ## Generic helpers used by the session models -/

/-- Mutating the first element of a list that satisfies `p` (the effect of
fetching an element with JS `Array.prototype.find` and assigning to its
fields, as the interview controller does). -/
def updateFirst {α : Type} (p : α → Bool) (f : α → α) : List α → List α
  | [] => []
  | x :: xs => if p x then f x :: xs else x :: updateFirst p f xs

/-- The result of a fallible operation is a success whose value satisfies
`P` (used to state properties of controller calls without naming the
updated session). -/
def okSat {ε α : Type} (e : Except ε α) (P : α → Prop) : Prop :=
  match e with
  | Except.ok a => P a
  | Except.error _ => False

/-! ## The test-session data model: `src/models/Test.ts` -/

/-- The `question_type` enum of `TestQuestionSchema`. -/
inductive QuestionType : Type
  | multiple_choice
  | true_false
  | fill_blank
  | coding
  | essay
deriving DecidableEq, Repr

/-- The per-question `difficulty` enum of `TestQuestionSchema`. -/
inductive TestQuestionDifficulty : Type
  | easy
  | medium
  | hard
deriving DecidableEq, Repr

/-- A JS value stored in a `Schema.Types.Mixed` field (`correct_answer`,
`selected_answer`): a number, a string, or a boolean.  JS strict equality
`===` on these is exactly structural equality (no cross-type coercion). -/
inductive JSValue : Type
  | num (n : ℤ)
  | str (s : String)
  | bool (b : Bool)
deriving DecidableEq, Repr

/-- JS `toString()` on a mixed value. -/
def JSValue.jsToString : JSValue → String
  | JSValue.num n => toString n
  | JSValue.str s => s
  | JSValue.bool b => if b then "true" else "false"

/-- `TestQuestion` of `src/models/Test.ts` (the embedded question of a
test; `question_id` is the referenced QuestionBank id). -/
structure TestQuestion : Type where
  question_id : ℕ
  question_text : String
  question_type : QuestionType
  options : List String
  correct_answer : JSValue
  explanation : String
  difficulty : TestQuestionDifficulty
  points : ℕ
  time_limit : ℕ
  tags : List String
  order : ℕ
deriving DecidableEq, Repr

/-- `UserAnswer` of `src/models/Test.ts`. -/
structure UserAnswer : Type where
  question_id : ℕ
  selected_answer : JSValue
  is_correct : Bool
  time_spent : ℕ
  points_earned : ℕ
deriving DecidableEq, Repr

/-- The `status` enum of `TestSessionSchema`. -/
inductive SessionStatus : Type
  | in_progress
  | completed
  | abandoned
  | timeout
deriving DecidableEq, Repr

/-- `ITestSession` of `src/models/Test.ts`.  Timestamps are abstract
naturals.  Per the schema, `total_questions` has `min: 1`. -/
structure TestSession : Type where
  user_id : ℕ
  test_id : ℕ
  session_id : String
  answers : List UserAnswer
  score : ℤ
  total_questions : ℕ
  correct_answers : ℕ
  time_spent : ℕ
  status : SessionStatus
  started_at : ℕ
  completed_at : Option ℕ
deriving DecidableEq, Repr

/-- `TestSessionSchema.methods.checkAnswer`: strict equality for
multiple-choice and true/false, lower-cased trimmed string equality for
fill-in-the-blank, lower-cased substring containment for coding, and
unconditionally `true` for essay. -/
def TestSession.checkAnswer (question : TestQuestion) (answer : JSValue) : Bool :=
  match question.question_type with
  | QuestionType.multiple_choice => answer == question.correct_answer
  | QuestionType.true_false => answer == question.correct_answer
  | QuestionType.fill_blank =>
    jsTrim (jsToLower answer.jsToString) == jsTrim (jsToLower question.correct_answer.jsToString)
  | QuestionType.coding =>
    jsIncludes (jsToLower answer.jsToString) (jsToLower question.correct_answer.jsToString)
  | QuestionType.essay => true

/-- The `TestSessionSchema.pre('save')` middleware, as it acts when the
`answers` array was modified: recompute `correct_answers` from the answers
array and `score = Math.round((correct_answers / total_questions) * 100)`.
(When `answers` was not modified, or is empty, the hook leaves the record
unchanged.) -/
def TestSession.preSaveRecompute (s : TestSession) : TestSession :=
  if s.answers.length > 0 then
    { s with
      correct_answers := (s.answers.filter (fun a => a.is_correct)).length,
      score := jsRound ((((s.answers.filter (fun a => a.is_correct)).length : ℚ) /
        (s.total_questions : ℚ)) * 100) }
  else s

/-- `TestSessionSchema.methods.addAnswer`: look the question up in the
populated test's question list (returning `false`, here `none`, when
absent), judge it with `checkAnswer`, push a new `UserAnswer` onto the
`answers` array, update the running counters and score, and save (which
runs the pre-save recomputation, since `answers` was modified). -/
def TestSession.addAnswer (s : TestSession) (testQuestions : List TestQuestion)
    (questionId : ℕ) (answer : JSValue) (timeSpent : ℕ) : Option TestSession :=
  match testQuestions.find? (fun q => q.question_id == questionId) with
  | none => none
  | some question =>
    let isCorrect := TestSession.checkAnswer question answer
    let pointsEarned := if isCorrect then question.points else 0
    let newAnswer : UserAnswer :=
      { question_id := questionId, selected_answer := answer,
        is_correct := isCorrect, time_spent := timeSpent, points_earned := pointsEarned }
    let s1 : TestSession :=
      { s with
        answers := s.answers ++ [newAnswer],
        correct_answers := s.correct_answers + (if isCorrect then 1 else 0),
        time_spent := s.time_spent + timeSpent }
    let s2 : TestSession :=
      { s1 with score := jsRound (((s1.correct_answers : ℚ) / (s1.total_questions : ℚ)) * 100) }
    some s2.preSaveRecompute

/-- The error outcomes of the submit-answer controller endpoints.  Both
controllers look the session up with a query that filters on
`status: 'in_progress'`, so a terminal (or paused) session yields the same
404 outcome as an absent one. -/
inductive SubmitError : Type
  | sessionNotFoundOrNotActive
  | questionNotFound
  | addAnswerFailed
deriving DecidableEq, Repr

/-- The `reason` accepted by the complete-session endpoints
(`completeTestSchema` / `completeInterviewSchema`). -/
inductive CompleteReason : Type
  | completed
  | abandoned
  | timeout
deriving DecidableEq, Repr

namespace TestController

/-- `TestController.submitAnswer`, acting on the session fetched for the
authenticated user (the query filters on `status: 'in_progress'`):
validate that the question belongs to the test, then delegate to
`addAnswer`. -/
def submitAnswer (testQuestions : List TestQuestion) (session : TestSession)
    (questionId : ℕ) (answer : JSValue) (timeSpent : ℕ) : Except SubmitError TestSession :=
  if session.status = SessionStatus.in_progress then
    match testQuestions.find? (fun q => q.question_id == questionId) with
    | none => Except.error SubmitError.questionNotFound
    | some _ =>
      match session.addAnswer testQuestions questionId answer timeSpent with
      | none => Except.error SubmitError.addAnswerFailed
      | some s2 => Except.ok s2
  else Except.error SubmitError.sessionNotFoundOrNotActive

/-- `TestController.completeTest`, acting on the session fetched for the
authenticated user.  The fetch does NOT filter on status, and the handler
performs no terminal-status check: it unconditionally sets
`status = reason === 'completed' ? 'completed' : 'abandoned'`, stamps
`completed_at = new Date()`, and saves (the pre-save hook does not fire on
`answers`, which is unmodified). -/
def completeTest (session : TestSession) (reason : CompleteReason) (now : ℕ) : TestSession :=
  { session with
    status := if reason = CompleteReason.completed then SessionStatus.completed
      else SessionStatus.abandoned,
    completed_at := some now }

end TestController

/-! ## The interview-session data model: `src/models/Interview.ts` -/

/-- The `question_type` enum of `InterviewQuestionSchema`. -/
inductive InterviewQuestionType : Type
  | behavioral
  | technical
  | situational
  | system_design
deriving DecidableEq, Repr

/-- The `difficulty` enum shared by interviews and tests
(`DIFFICULTY_VALUES`). -/
inductive Difficulty : Type
  | beginner
  | intermediate
  | advanced
deriving DecidableEq, Repr

/-- The `status` enum of `InterviewSchema` (note: `paused` instead of the
test variant's `timeout`). -/
inductive InterviewStatus : Type
  | in_progress
  | completed
  | abandoned
  | paused
deriving DecidableEq, Repr

/-- `QuestionFeedbackSchema`: the per-question structured feedback stored
by the interview submit endpoint. -/
structure QuestionFeedback : Type where
  strengths : List String
  improvements : List String
  suggestions : List String
  keyword_matches : ℕ
  keyword_missed : List String
  clarity_score : ℤ
  completeness_score : ℤ
  relevance_score : ℤ
deriving DecidableEq, Repr

/-- `InterviewQuestionSchema`: one question attempt embedded in an
interview session. -/
structure InterviewQuestion : Type where
  question_id : ℕ
  question_text : String
  question_type : InterviewQuestionType
  expected_keywords : List String
  difficulty_weight : ℕ
  time_allocated : ℕ
  time_taken : ℕ
  user_answer : String
  ai_score : ℤ
  feedback : QuestionFeedback
  order : ℕ
deriving DecidableEq, Repr

/-- `SessionDataSchema` inside the interview metadata. -/
structure SessionData : Type where
  total_questions : ℕ
  answered_questions : ℕ
  skipped_questions : ℕ
  average_time_per_question : ℚ
deriving DecidableEq, Repr

/-- `InterviewMetadataSchema` (device info omitted; it is never read). -/
structure InterviewMetadata : Type where
  duration : ℕ
  paused_times : ℕ
  completion_rate : ℤ
  started_at : ℕ
  completed_at : Option ℕ
  session_data : SessionData
deriving DecidableEq, Repr

/-- `CategoryScoresSchema` of the overall feedback.  The `clarity` entry is
`Option ℤ` because `calculateClarityScore` divides by the question count
and is `NaN` (`none`) on an interview without questions. -/
structure CategoryScores : Type where
  communication : ℤ
  technical_knowledge : ℤ
  confidence : ℤ
  clarity : Option ℤ
  problem_solving : ℤ
  time_management : ℤ
deriving DecidableEq, Repr

/-- The `overall_rating` enum of `InterviewFeedbackSchema`. -/
inductive OverallRating : Type
  | excellent
  | good
  | average
  | needs_improvement
deriving DecidableEq, Repr

/-- `InterviewFeedbackSchema`: the FeedbackSummary attached on
completion. -/
structure InterviewFeedback : Type where
  total_score : ℤ
  category_scores : CategoryScores
  strengths : List String
  areas_for_improvement : List String
  recommendations : List String
  next_steps : List String
  overall_rating : OverallRating
  detailed_analysis : String
deriving DecidableEq, Repr

/-- `IInterview` of `src/models/Interview.ts`. -/
structure Interview : Type where
  user_id : ℕ
  session_id : String
  category : String
  difficulty : Difficulty
  questions : List InterviewQuestion
  overall_feedback : Option InterviewFeedback
  metadata : InterviewMetadata
  status : InterviewStatus
  completed_at : Option ℕ
deriving DecidableEq, Repr

/-- Virtual `totalQuestions`. -/
def Interview.totalQuestions (iv : Interview) : ℕ := iv.questions.length

/-- Virtual `answeredQuestions`: questions whose `user_answer` is a
non-empty string after trimming (`q.user_answer && q.user_answer.trim().length > 0`). -/
def Interview.answeredQuestions (iv : Interview) : ℕ :=
  (iv.questions.filter (fun q => (jsTrim q.user_answer).length > 0)).length

/-- Sum of the per-question `ai_score` values. -/
def totalAiScore (iv : Interview) : ℤ :=
  (iv.questions.map (fun q => q.ai_score)).sum

/-- Virtual `averageScore`: `Math.round` of the mean `ai_score` over all
questions (0 on an empty question list). -/
def Interview.averageScore (iv : Interview) : ℤ :=
  if iv.questions.length = 0 then 0
  else jsRound ((totalAiScore iv : ℚ) / (iv.questions.length : ℚ))

/-- Virtual `completionRate`:
`Math.round((answeredQuestions / totalQuestions) * 100)` (0 on an empty
question list). -/
def Interview.completionRate (iv : Interview) : ℤ :=
  if iv.questions.length = 0 then 0
  else jsRound (((iv.answeredQuestions : ℚ) / (iv.totalQuestions : ℚ)) * 100)

/-- Virtual `totalTimeSpent`. -/
def Interview.totalTimeSpent (iv : Interview) : ℕ :=
  (iv.questions.map (fun q => q.time_taken)).sum

/-- The difficulty weight of `calculateOverallScore`
(`beginner ? 1.0 : intermediate ? 1.2 : 1.5`). -/
def difficultyWeight : Difficulty → ℚ
  | Difficulty.beginner => 1
  | Difficulty.intermediate => 12/10
  | Difficulty.advanced => 15/10

/-- `InterviewSchema.methods.calculateOverallScore`: mean `ai_score` over
ALL questions, multiplied by the difficulty weight and by
`completionRate / 100` (where `completionRate` is the already-rounded
percentage), then `Math.round`ed. -/
def Interview.calculateOverallScore (iv : Interview) : ℤ :=
  if iv.questions.length = 0 then 0
  else
    jsRound (((totalAiScore iv : ℚ) / (iv.questions.length : ℚ)) *
      difficultyWeight iv.difficulty * ((iv.completionRate : ℚ) / 100))

/-- `calculateCategoryScore`: rounded mean `ai_score` over the questions of
the given types (0 when there are none). -/
def Interview.calculateCategoryScore (iv : Interview)
    (questionTypes : List InterviewQuestionType) : ℤ :=
  let relevant := iv.questions.filter (fun q => questionTypes.contains q.question_type)
  if relevant.length = 0 then 0
  else jsRound (((relevant.map (fun q => q.ai_score)).sum : ℚ) / (relevant.length : ℚ))

/-- `calculateConfidenceScore`.  On an empty question list the JS averages
are `NaN`, every comparison is false and the result is the base score 50;
otherwise base 50 plus answer-length and response-time bonuses, clamped. -/
def Interview.calculateConfidenceScore (iv : Interview) : ℤ :=
  if iv.questions.length = 0 then 50
  else
    let len : ℚ := (iv.questions.length : ℚ)
    let avgAnswerLength : ℚ := ((iv.questions.map (fun q => (q.user_answer.length : ℤ))).sum : ℚ) / len
    let avgResponseTime : ℚ := (iv.totalTimeSpent : ℚ) / len
    let avgTimeAllocated : ℚ := ((iv.questions.map (fun q => (q.time_allocated : ℤ))).sum : ℚ) / len
    let b1 : ℤ := if avgAnswerLength > 100 then 20 else if avgAnswerLength > 50 then 10 else 0
    let b2 : ℤ := if avgResponseTime < avgTimeAllocated * (8/10) then 15
      else if avgResponseTime < avgTimeAllocated then 10 else 0
    min 100 (max 0 (50 + b1 + b2))

/-- The interview model's `calculateClarityScore`: rounded mean of the
per-question `feedback.keyword_matches`; `none` models the `NaN` produced
on an empty question list. -/
def Interview.calculateClarityScore (iv : Interview) : Option ℤ :=
  if iv.questions.length = 0 then none
  else some (jsRound (((iv.questions.map (fun q => (q.feedback.keyword_matches : ℤ))).sum : ℚ) /
    (iv.questions.length : ℚ)))

/-- `calculateProblemSolvingScore`: rounded mean `ai_score` over technical
and system-design questions (0 when there are none). -/
def Interview.calculateProblemSolvingScore (iv : Interview) : ℤ :=
  let technicalQuestions := iv.questions.filter
    (fun q => q.question_type == InterviewQuestionType.technical ||
      q.question_type == InterviewQuestionType.system_design)
  if technicalQuestions.length = 0 then 0
  else jsRound (((technicalQuestions.map (fun q => q.ai_score)).sum : ℚ) /
    (technicalQuestions.length : ℚ))

/-- `calculateTimeManagementScore`: efficiency-based score
`round(clamp(50 + efficiency * 50))`. -/
def Interview.calculateTimeManagementScore (iv : Interview) : ℤ :=
  let totalAllocated : ℚ := ((iv.questions.map (fun q => (q.time_allocated : ℤ))).sum : ℚ)
  let totalUsed : ℚ := (iv.totalTimeSpent : ℚ)
  let efficiency : ℚ := if totalAllocated > 0 then (totalAllocated - totalUsed) / totalAllocated else 0
  jsRound (max 0 (min 100 (50 + efficiency * 50)))

/-- JS `x >= k` where `x` may be `NaN` (`none`): `NaN` compares false. -/
def jsGe (x : Option ℤ) (k : ℤ) : Bool :=
  match x with
  | none => false
  | some v => v ≥ k

/-- JS `x < k` where `x` may be `NaN` (`none`): `NaN` compares false. -/
def jsLt (x : Option ℤ) (k : ℤ) : Bool :=
  match x with
  | none => false
  | some v => v < k

/-- `generateStrengths`: one phrase per category scoring at least 80, with
a fallback phrase when none does. -/
def generateStrengths (cs : CategoryScores) : List String :=
  let l :=
    (if cs.communication ≥ 80 then ["Excellent communication skills"] else []) ++
    (if cs.technical_knowledge ≥ 80 then ["Strong technical knowledge"] else []) ++
    (if cs.confidence ≥ 80 then ["High confidence in responses"] else []) ++
    (if jsGe cs.clarity 80 then ["Clear and articulate answers"] else []) ++
    (if cs.problem_solving ≥ 80 then ["Strong problem-solving abilities"] else []) ++
    (if cs.time_management ≥ 80 then ["Good time management"] else [])
  if l.length > 0 then l else ["Shows potential for improvement"]

/-- `generateImprovements`: one phrase per category scoring below 70, with
a fallback phrase when none does. -/
def generateImprovements (cs : CategoryScores) : List String :=
  let l :=
    (if cs.communication < 70 then ["Work on communication clarity"] else []) ++
    (if cs.technical_knowledge < 70 then ["Strengthen technical knowledge"] else []) ++
    (if cs.confidence < 70 then ["Build confidence in responses"] else []) ++
    (if jsLt cs.clarity 70 then ["Improve answer structure and clarity"] else []) ++
    (if cs.problem_solving < 70 then ["Enhance problem-solving approach"] else []) ++
    (if cs.time_management < 70 then ["Better time management during interviews"] else [])
  if l.length > 0 then l else ["Continue practicing to maintain current level"]

/-- `generateRecommendations`. -/
def generateRecommendations (cs : CategoryScores) : List String :=
  (if cs.communication < 70 then
    ["Practice the STAR method for behavioral questions",
     "Record yourself answering questions to improve articulation"] else []) ++
  (if cs.technical_knowledge < 70 then
    ["Review core technical concepts in your field",
     "Practice coding problems and system design"] else []) ++
  (if cs.confidence < 70 then
    ["Practice mock interviews regularly",
     "Prepare common interview questions in advance"] else [])

/-- `generateNextSteps`. -/
def generateNextSteps (improvements : List String) : List String :=
  improvements.map (fun improvement => "Focus on: " ++ improvement)

/-- `getOverallRating`: the qualitative bucket of the total score. -/
def getOverallRating (totalScore : ℤ) : OverallRating :=
  if totalScore ≥ 90 then OverallRating.excellent
  else if totalScore ≥ 75 then OverallRating.good
  else if totalScore ≥ 60 then OverallRating.average
  else OverallRating.needs_improvement

/-- `generateDetailedAnalysis`. -/
def Interview.generateDetailedAnalysis (iv : Interview) : String :=
  let l1 := "You completed " ++ toString iv.answeredQuestions ++ " out of " ++
    toString iv.totalQuestions ++ " questions."
  let l2 := "Your overall performance score is " ++ toString iv.calculateOverallScore ++ "%."
  let l3 := if iv.completionRate < 50 then
    ["Consider practicing time management to complete more questions."] else []
  let l4 := if iv.averageScore < 60 then
    ["Focus on improving your technical knowledge and communication skills."] else []
  String.intercalate " " ([l1, l2] ++ l3 ++ l4)

/-- `InterviewSchema.methods.generateFeedback`: assembles the
FeedbackSummary from `calculateOverallScore` and the six category
scores. -/
def Interview.generateFeedback (iv : Interview) : InterviewFeedback :=
  let totalScore := iv.calculateOverallScore
  let categoryScores : CategoryScores :=
    { communication := iv.calculateCategoryScore
        [InterviewQuestionType.behavioral, InterviewQuestionType.situational],
      technical_knowledge := iv.calculateCategoryScore
        [InterviewQuestionType.technical, InterviewQuestionType.system_design],
      confidence := iv.calculateConfidenceScore,
      clarity := iv.calculateClarityScore,
      problem_solving := iv.calculateProblemSolvingScore,
      time_management := iv.calculateTimeManagementScore }
  let improvements := generateImprovements categoryScores
  { total_score := totalScore,
    category_scores := categoryScores,
    strengths := generateStrengths categoryScores,
    areas_for_improvement := improvements,
    recommendations := generateRecommendations categoryScores,
    next_steps := generateNextSteps improvements,
    overall_rating := getOverallRating totalScore,
    detailed_analysis := iv.generateDetailedAnalysis }

/-- The `InterviewSchema.pre('save')` middleware: when there are
questions, refresh `metadata.completion_rate`,
`metadata.session_data.answered_questions` and
`metadata.session_data.average_time_per_question` from the current
questions; and when the status was changed to `completed` with no
`completed_at` yet, stamp it with the current time `now`. -/
def Interview.preSave (iv : Interview) (now : ℕ) : Interview :=
  let iv1 :=
    if iv.questions.length > 0 then
      { iv with metadata :=
        { iv.metadata with
          completion_rate := iv.completionRate,
          session_data :=
          { iv.metadata.session_data with
            answered_questions := iv.answeredQuestions,
            average_time_per_question := (iv.totalTimeSpent : ℚ) / (iv.questions.length : ℚ) } } }
    else iv
  if iv1.status = InterviewStatus.completed ∧ iv1.completed_at = none then
    { iv1 with
      completed_at := some now,
      metadata := { iv1.metadata with completed_at := some now } }
  else iv1

namespace InterviewController

/-- `InterviewController.submitAnswer`, acting on the session fetched for
the authenticated user (the query filters on `status: 'in_progress'`).
The AI analysis result for `(question_text, answer, expected_keywords)` is
passed in as `aiScore`/`aiFeedback` (the controller awaits
`AIService.analyzeAnswer`, whose `score` field is
`AIService.simulateAIAnalysisScore` on the success path and 50 on the
fallback path).  The matching question is mutated in place — the prior
attempt, if any, is overwritten — the raw `answered_questions` counter is
incremented, the average time is refreshed, and the record is saved
(running the pre-save middleware, which recomputes the session-data
counters from the questions array). -/
def submitAnswer (iv : Interview) (questionId : ℕ) (answer : String) (timeTaken : ℕ)
    (aiScore : ℤ) (aiFeedback : QuestionFeedback) (now : ℕ) : Except SubmitError Interview :=
  if iv.status = InterviewStatus.in_progress then
    match iv.questions.find? (fun q => q.question_id == questionId) with
    | none => Except.error SubmitError.questionNotFound
    | some _ =>
      let qs := updateFirst (fun q => q.question_id == questionId)
        (fun q =>
          { q with
            user_answer := answer, time_taken := timeTaken,
            ai_score := aiScore, feedback := aiFeedback }) iv.questions
      let iv1 : Interview := { iv with questions := qs }
      let iv2 : Interview :=
        { iv1 with metadata :=
          { iv1.metadata with session_data :=
            { iv1.metadata.session_data with
              answered_questions := iv1.metadata.session_data.answered_questions + 1,
              average_time_per_question :=
                (iv1.totalTimeSpent : ℚ) / (iv1.questions.length : ℚ) } } }
      Except.ok (iv2.preSave now)
  else Except.error SubmitError.sessionNotFoundOrNotActive

/-- `InterviewController.completeInterview`, acting on the session fetched
for the authenticated user.  The fetch does NOT filter on status and the
handler performs no terminal-status check: it unconditionally sets
`status = reason === 'completed' ? 'completed' : 'abandoned'`, stamps
`completed_at` and `metadata.completed_at`, generates and attaches the
overall feedback, and saves. -/
def completeInterview (iv : Interview) (reason : CompleteReason) (now : ℕ) : Interview :=
  let iv1 : Interview :=
    { iv with
      status := if reason = CompleteReason.completed then InterviewStatus.completed
        else InterviewStatus.abandoned,
      completed_at := some now,
      metadata := { iv.metadata with completed_at := some now } }
  let iv2 : Interview := { iv1 with overall_feedback := some iv1.generateFeedback }
  iv2.preSave now

end InterviewController

/-! ## Spec-side definitions (for refinement statements) -/

/-- Modelled from the spec §4.1 (free-text contract): the overall score
`round(0.4·keyword_score + 0.3·clarity_score + 0.2·completeness_score +
0.1·relevance_score)` clamped to `[0, 100]`, written with the spec's
coefficient-first weighting.  Defined only in terms of the component score
values, so it is meaningful exactly when neither the keyword score nor the
relevance score is `NaN`. -/
def specOverallScore (answer question : String) (keywords : List String) : ℤ :=
  min 100 (max 0 (jsRound (
    (4/10 : ℚ) * AIService.keywordScoreVal answer keywords +
    (3/10 : ℚ) * AIService.calculateClarityScore answer +
    (2/10 : ℚ) * AIService.calculateCompletenessScore answer question +
    (1/10 : ℚ) * AIService.relevanceScoreVal answer question)))

/-- Modelled from the spec §4.1 closed-form contract, as amended: the
trim/case-fold normalization applies only to fill-in-the-blank answers;
multiple-choice and true/false compare the submitted value to
`correct_answer` with strict equality; coding uses substring containment;
essay is unconditionally correct. -/
def checkAnswerSpec (question : TestQuestion) (answer : JSValue) : Bool :=
  if question.question_type = QuestionType.fill_blank then
    jsTrim (jsToLower answer.jsToString) == jsTrim (jsToLower question.correct_answer.jsToString)
  else if question.question_type = QuestionType.coding then
    jsIncludes (jsToLower answer.jsToString) (jsToLower question.correct_answer.jsToString)
  else if question.question_type = QuestionType.essay then
    true
  else
    answer == question.correct_answer

/-! ## Concrete sample data (used in counterexamples and witnesses) -/

/-- A one-question true/false test. -/
def sampleTest : List TestQuestion :=
  [{ question_id := 1, question_text := "Is 2 plus 2 equal to 4?",
     question_type := QuestionType.true_false, options := [],
     correct_answer := JSValue.bool true, explanation := "Basic arithmetic.",
     difficulty := TestQuestionDifficulty.easy, points := 1, time_limit := 60,
     tags := ["math"], order := 1 }]

/-- An in-progress session on `sampleTest` that has already answered
question 1 correctly. -/
def sampleTestSession : TestSession :=
  { user_id := 1, test_id := 1, session_id := "sess-1",
    answers := [{ question_id := 1, selected_answer := JSValue.bool true,
                  is_correct := true, time_spent := 5, points_earned := 1 }],
    score := 100, total_questions := 1, correct_answers := 1, time_spent := 5,
    status := SessionStatus.in_progress, started_at := 0, completed_at := none }

/-- A test session that has already been completed (terminal status,
completion stamped at time 100). -/
def completedTestSession : TestSession :=
  { sampleTestSession with status := SessionStatus.completed, completed_at := some 100 }

/-- A multiple-choice question whose `correct_answer` is the string
`"A"`. -/
def mcQuestion : TestQuestion :=
  { question_id := 1, question_text := "Which tier sits closest to the user?",
    question_type := QuestionType.multiple_choice, options := ["A", "B"],
    correct_answer := JSValue.str "A", explanation := "",
    difficulty := TestQuestionDifficulty.easy, points := 5, time_limit := 60,
    tags := [], order := 1 }

/-- An essay question. -/
def essayQuestion : TestQuestion :=
  { question_id := 1, question_text := "Describe your debugging process.",
    question_type := QuestionType.essay, options := [],
    correct_answer := JSValue.str "any", explanation := "",
    difficulty := TestQuestionDifficulty.medium, points := 4, time_limit := 300,
    tags := [], order := 1 }

/-- A fresh in-progress one-question session (no answers yet). -/
def freshTestSession : TestSession :=
  { user_id := 1, test_id := 1, session_id := "sess-2", answers := [],
    score := 0, total_questions := 1, correct_answers := 0, time_spent := 0,
    status := SessionStatus.in_progress, started_at := 0, completed_at := none }

/-- Empty per-question feedback (the skeleton stored at session start). -/
def emptyFeedback : QuestionFeedback :=
  { strengths := [], improvements := [], suggestions := [], keyword_matches := 0,
    keyword_missed := [], clarity_score := 0, completeness_score := 0,
    relevance_score := 0 }

/-- Metadata skeleton for a one-question interview. -/
def sampleMetadata : InterviewMetadata :=
  { duration := 120, paused_times := 0, completion_rate := 0, started_at := 0,
    completed_at := none,
    session_data := { total_questions := 1, answered_questions := 0,
                      skipped_questions := 0, average_time_per_question := 0 } }

/-- A technical interview question skeleton. -/
def sampleInterviewQuestion : InterviewQuestion :=
  { question_id := 1, question_text := "Explain the difference between a stack and a queue",
    question_type := InterviewQuestionType.technical,
    expected_keywords := ["stack", "queue"], difficulty_weight := 2,
    time_allocated := 120, time_taken := 0, user_answer := "", ai_score := 0,
    feedback := emptyFeedback, order := 1 }

/-- An in-progress one-question intermediate interview. -/
def sampleInterview : Interview :=
  { user_id := 1, session_id := "iv-1", category := "technical",
    difficulty := Difficulty.intermediate, questions := [sampleInterviewQuestion],
    overall_feedback := none, metadata := sampleMetadata,
    status := InterviewStatus.in_progress, completed_at := none }

/-- An interview already in a terminal status (completed at time 100). -/
def completedInterview : Interview :=
  { sampleInterview with status := InterviewStatus.completed, completed_at := some 100 }

/-- A beginner interview with three questions of which exactly one is
answered (score 95); used to separate the code's rounded completion
percentage from the spec's exact completion fraction. -/
def threeQuestionInterview : Interview :=
  { sampleInterview with
    difficulty := Difficulty.beginner,
    questions :=
      [{ sampleInterviewQuestion with
           question_id := 1, order := 1, ai_score := 95, user_answer := "done", time_taken := 30 },
       { sampleInterviewQuestion with question_id := 2, order := 2 },
       { sampleInterviewQuestion with question_id := 3, order := 3 }],
    metadata :=
      { sampleMetadata with
        session_data := { total_questions := 3, answered_questions := 1,
                          skipped_questions := 0, average_time_per_question := 10 } } }

/-! ## Helper lemmas -/

theorem updateFirst_length {α : Type} (p : α → Bool) (f : α → α) (l : List α) :
    (updateFirst p f l).length = l.length := by
  induction l with
  | nil => rfl
  | cons x xs ih =>
    by_cases hx : p x <;> simp [updateFirst, hx, ih]

theorem updateFirst_filter {α : Type} (p : α → Bool) (f : α → α)
    (hpf : ∀ a, p (f a) = p a) (l : List α) (q : α) (hl : l.filter p = [q]) :
    (updateFirst p f l).filter p = [f q] := by
  induction l with
  | nil => simp at hl
  | cons x xs ih =>
    by_cases hx : p x
    · rw [List.filter_cons_of_pos hx] at hl
      obtain ⟨rfl, hrest⟩ : x = q ∧ xs.filter p = [] := by
        constructor
        · exact (List.cons.injEq _ _ _ _ ▸ hl).1
        · exact (List.cons.injEq _ _ _ _ ▸ hl).2
      simp [updateFirst, hx, List.filter_cons_of_pos, hpf, hrest]
    · rw [List.filter_cons_of_neg hx] at hl
      simp [updateFirst, hx, List.filter_cons_of_neg, ih hl]

theorem okSat_of_ok {ε α : Type} {a : α} {P : α → Prop} (h : P a) :
    okSat (Except.ok a : Except ε α) P := h

theorem Interview.preSave_questions (iv : Interview) (now : ℕ) :
    (iv.preSave now).questions = iv.questions := by
  simp only [Interview.preSave]
  split <;> split <;> rfl

theorem Interview.preSave_status (iv : Interview) (now : ℕ) :
    (iv.preSave now).status = iv.status := by
  simp only [Interview.preSave]
  split <;> split <;> rfl

theorem Interview.preSave_difficulty (iv : Interview) (now : ℕ) :
    (iv.preSave now).difficulty = iv.difficulty := by
  simp only [Interview.preSave]
  split <;> split <;> rfl

theorem Interview.preSave_completed_at_of_status_ne (iv : Interview) (now : ℕ)
    (h : iv.status ≠ InterviewStatus.completed) :
    (iv.preSave now).completed_at = iv.completed_at := by
  simp only [Interview.preSave]
  split <;> split <;> first
  | rfl
  | (exfalso; rename_i hc; exact absurd hc.1 h)

theorem Interview.preSave_completed_at_of_some (iv : Interview) (now t0 : ℕ)
    (h : iv.completed_at = some t0) :
    (iv.preSave now).completed_at = some t0 := by
  simp only [Interview.preSave]
  split <;> split <;> first
  | exact h
  | (exfalso; rename_i hc; rw [h] at hc; exact Option.some_ne_none t0 hc.2)

theorem Interview.preSave_answered_questions (iv : Interview) (now : ℕ)
    (h : 0 < iv.questions.length) :
    (iv.preSave now).metadata.session_data.answered_questions = iv.answeredQuestions := by
  simp only [Interview.preSave]
  rw [if_pos h]
  rw [apply_ite (fun x : Interview => x.metadata.session_data.answered_questions)]
  simp

theorem Interview.preSave_completion_rate (iv : Interview) (now : ℕ)
    (h : 0 < iv.questions.length) :
    (iv.preSave now).metadata.completion_rate = iv.completionRate := by
  simp only [Interview.preSave]
  rw [if_pos h]
  rw [apply_ite (fun x : Interview => x.metadata.completion_rate)]
  simp

theorem Interview.answeredQuestions_preSave (iv : Interview) (now : ℕ) :
    (iv.preSave now).answeredQuestions = iv.answeredQuestions := by
  unfold Interview.answeredQuestions
  rw [Interview.preSave_questions]

theorem Interview.completionRate_preSave (iv : Interview) (now : ℕ) :
    (iv.preSave now).completionRate = iv.completionRate := by
  unfold Interview.completionRate Interview.totalQuestions
  rw [Interview.preSave_questions, Interview.answeredQuestions_preSave]

theorem List.length_pos_of_find?_eq_some {α : Type} {p : α → Bool} {l : List α} {q : α}
    (h : l.find? p = some q) : 0 < l.length :=
  List.length_pos.mpr (List.ne_nil_of_mem (List.mem_of_find?_eq_some h))

theorem TestSession.preSaveRecompute_answers (s : TestSession) :
    s.preSaveRecompute.answers = s.answers := by
  unfold TestSession.preSaveRecompute
  split <;> rfl

theorem TestSession.preSaveRecompute_status (s : TestSession) :
    s.preSaveRecompute.status = s.status := by
  unfold TestSession.preSaveRecompute
  split <;> rfl

/-- Inversion of a successful `TestController.submitAnswer` call: the
session was in progress, the question was found, a new answer record was
appended, and the saved counters/score are the pre-save recomputation from
the final answers array. -/
theorem TestController.testSubmitAnswer_ok {test : List TestQuestion} {s : TestSession}
    {qid : ℕ} {ans : JSValue} {t : ℕ} {s' : TestSession}
    (h : TestController.submitAnswer test s qid ans t = Except.ok s') :
    s.status = SessionStatus.in_progress ∧
    ∃ q, test.find? (fun x => x.question_id == qid) = some q ∧
      s'.answers = s.answers ++
        [{ question_id := qid, selected_answer := ans,
           is_correct := TestSession.checkAnswer q ans, time_spent := t,
           points_earned := if TestSession.checkAnswer q ans then q.points else 0 }] ∧
      s'.total_questions = s.total_questions ∧
      s'.status = s.status ∧
      s'.completed_at = s.completed_at ∧
      s'.time_spent = s.time_spent + t ∧
      s'.correct_answers = (s'.answers.filter (fun a => a.is_correct)).length ∧
      s'.score = jsRound (((s'.answers.filter (fun a => a.is_correct)).length : ℚ) /
        (s'.total_questions : ℚ) * 100) := by
  unfold TestController.submitAnswer at h
  split at h
  case isFalse => exact absurd h (by simp)
  case isTrue hst =>
    constructor
    · exact hst
    · split at h
      case h_1 => exact absurd h (by simp)
      case h_2 q heq =>
        refine ⟨q, heq, ?_⟩
        rw [TestSession.addAnswer, heq] at h
        simp only [] at h
        rw [Except.ok.injEq] at h
        subst h
        simp only [TestSession.preSaveRecompute, List.length_append, List.length_cons]
        rw [if_pos (by omega)]
        simp

/-- Inversion of a successful `InterviewController.submitAnswer` call: the
session was in progress, the question list is non-empty, the first question
matching the id was overwritten in place with the latest answer, time and
score, the lifecycle fields are untouched, and the saved metadata counters
agree with the virtuals recomputed from the final questions array. -/
theorem InterviewController.interviewSubmitAnswer_ok {iv : Interview} {qid : ℕ} {ans : String}
    {t : ℕ} {sc : ℤ} {fb : QuestionFeedback} {now : ℕ} {iv' : Interview}
    (h : InterviewController.submitAnswer iv qid ans t sc fb now = Except.ok iv') :
    iv.status = InterviewStatus.in_progress ∧
    0 < iv.questions.length ∧
    iv'.questions = updateFirst (fun q => q.question_id == qid)
      (fun q =>
        { q with
          user_answer := ans, time_taken := t, ai_score := sc, feedback := fb })
      iv.questions ∧
    iv'.status = iv.status ∧
    iv'.completed_at = iv.completed_at ∧
    iv'.difficulty = iv.difficulty ∧
    iv'.metadata.session_data.answered_questions = iv'.answeredQuestions ∧
    iv'.metadata.completion_rate = iv'.completionRate := by
  unfold InterviewController.submitAnswer at h
  split at h
  case isFalse => exact absurd h (by simp)
  case isTrue hst =>
  split at h
  case h_1 => exact absurd h (by simp)
  case h_2 q heq =>
  rw [Except.ok.injEq] at h
  subst h
  have hlen : 0 < iv.questions.length := List.length_pos_of_find?_eq_some heq
  have hlen2 : 0 < (updateFirst (fun q => q.question_id == qid)
      (fun q =>
        { q with
          user_answer := ans, time_taken := t, ai_score := sc, feedback := fb })
      iv.questions).length := by
    rw [updateFirst_length]; exact hlen
  refine ⟨hst, hlen, ?_, ?_, ?_, ?_, ?_, ?_⟩
  · rw [Interview.preSave_questions]
  · rw [Interview.preSave_status]
  · rw [Interview.preSave_completed_at_of_status_ne]
    intro hcon
    exact absurd (hst.symm.trans hcon) (by decide)
  · rw [Interview.preSave_difficulty]
  · rw [Interview.preSave_answered_questions _ _ hlen2, Interview.answeredQuestions_preSave]
  · rw [Interview.preSave_completion_rate _ _ hlen2, Interview.completionRate_preSave]

/-- A submit-answer call on an in-progress test session for a question of
the test succeeds. -/
theorem TestController.testSubmitAnswer_ok_exists {test : List TestQuestion} {s : TestSession}
    {qid : ℕ} {ans : JSValue} {t : ℕ}
    (hstat : s.status = SessionStatus.in_progress)
    (hfind : (test.find? (fun q => q.question_id == qid)).isSome = true) :
    ∃ s', TestController.submitAnswer test s qid ans t = Except.ok s' := by
  unfold TestController.submitAnswer
  rw [if_pos hstat]
  obtain ⟨q, hq⟩ := Option.isSome_iff_exists.mp hfind
  rw [hq]
  unfold TestSession.addAnswer
  rw [hq]
  exact ⟨_, rfl⟩

/-- A submit-answer call on an in-progress interview for a question of the
session succeeds. -/
theorem InterviewController.interviewSubmitAnswer_ok_exists {iv : Interview} {qid : ℕ} {ans : String}
    {t : ℕ} {sc : ℤ} {fb : QuestionFeedback} {now : ℕ}
    (hstat : iv.status = InterviewStatus.in_progress)
    (hfind : (iv.questions.find? (fun q => q.question_id == qid)).isSome = true) :
    ∃ iv', InterviewController.submitAnswer iv qid ans t sc fb now = Except.ok iv' := by
  unfold InterviewController.submitAnswer
  rw [if_pos hstat]
  obtain ⟨q, hq⟩ := Option.isSome_iff_exists.mp hfind
  rw [hq]
  exact ⟨_, rfl⟩

theorem InterviewController.completeInterview_status (iv : Interview)
    (reason : CompleteReason) (now : ℕ) :
    (InterviewController.completeInterview iv reason now).status =
      (if reason = CompleteReason.completed then InterviewStatus.completed
        else InterviewStatus.abandoned) := by
  unfold InterviewController.completeInterview
  rw [Interview.preSave_status]

theorem InterviewController.completeInterview_completed_at (iv : Interview)
    (reason : CompleteReason) (now : ℕ) :
    (InterviewController.completeInterview iv reason now).completed_at = some now := by
  unfold InterviewController.completeInterview
  exact Interview.preSave_completed_at_of_some _ _ now rfl

/-! ## Claim theorems -/

/-- C10: if a free-text question's `expected_keywords` list is empty, the
keyword-score computation `(matches / expected_keywords.length) * 100`
divides by zero, the resulting `NaN` propagates through the weighted sum
and the `Math.min(100, Math.max(0, ·))` clamp, and the scoring function
returns `NaN` (modelled as `none`) instead of a number in [0,100]; the
0–100 score guarantee therefore requires `expected_keywords` to be
non-empty. -/
theorem c10_empty_keywords_score_is_nan (answer question : String) :
    AIService.simulateAIAnalysisScore answer question [] = none := rfl

/-- C3 counterexample: with the non-empty keyword list `["y"]` but a
question (`"Why?"`) that has no token longer than 3 characters, the
relevance-score computation divides by zero, so the returned overall score
is `NaN` (`none`) rather than a number in `[0, 100]` — refuting the claim
that non-empty `expected_keywords` alone guarantees a score in range. -/
theorem c3_counterexample :
    AIService.simulateAIAnalysisScore "x" "Why?" ["y"] = none ∧
    (["y"] : List String) ≠ [] := ⟨rfl, by decide⟩

/-- C3 (amended): for every free-text submission whose question has a
non-empty `expected_keywords` list AND whose question text has at least one
salient term (a token longer than 3 characters — otherwise the relevance
score is `NaN`), the returned overall score equals
`round(0.4·keyword_score + 0.3·clarity_score + 0.2·completeness_score +
0.1·relevance_score)` clamped to `[0, 100]`, and lies in `[0, 100]`.  The
score is a pure function of `(answer, expected_keywords, question_text)`
by construction of the embedding (the source reads no other state). -/
theorem c3_free_text_score_formula (answer question : String) (keywords : List String)
    (hk : keywords ≠ []) (hq : AIService.questionSalientTerms question ≠ []) :
    AIService.simulateAIAnalysisScore answer question keywords =
      some (specOverallScore answer question keywords) ∧
    0 ≤ specOverallScore answer question keywords ∧
    specOverallScore answer question keywords ≤ 100 := by
  have hk' : ¬ keywords.length = 0 := by simpa using hk
  have hq' : ¬ (AIService.questionSalientTerms question).length = 0 := by simpa using hq
  refine ⟨?_, ?_, ?_⟩
  · unfold AIService.simulateAIAnalysisScore AIService.overallScore
      AIService.keywordScore AIService.calculateRelevanceScore
    rw [if_neg hk', if_neg hq']
    simp only [Option.map_some']
    unfold specOverallScore AIService.keywordScoreVal AIService.relevanceScoreVal
    have key : ∀ x y : ℚ, x = y →
        some (min 100 (max 0 (jsRound x))) = some (min 100 (max 0 (jsRound y))) := by
      intro x y hxy
      rw [hxy]
    apply key
    ring
  · unfold specOverallScore
    exact le_min (by norm_num) (le_max_left 0 _)
  · unfold specOverallScore
    exact min_le_left _ _

/-- C3 witness: the amended theorem applied at a concrete free-text
submission. -/
theorem c3_witness :
    AIService.simulateAIAnalysisScore "ok" "Explain stacks now" ["stack"] =
      some (specOverallScore "ok" "Explain stacks now" ["stack"]) ∧
    0 ≤ specOverallScore "ok" "Explain stacks now" ["stack"] ∧
    specOverallScore "ok" "Explain stacks now" ["stack"] ≤ 100 :=
  c3_free_text_score_formula "ok" "Explain stacks now" ["stack"] (by decide) (by decide)

/-- C9: in the test variant, every answer submitted for a question of kind
`essay` is recorded as correct (`is_correct = true`) and earns the full
point weight, regardless of the submitted text — the essay branch of
`checkAnswer` unconditionally returns `true` (a placeholder for AI
analysis, per the source comment). -/
theorem c9_essay_always_full_credit (test : List TestQuestion) (s : TestSession)
    (q : TestQuestion) (ans : JSValue) (t : ℕ)
    (hfind : test.find? (fun x => x.question_id == q.question_id) = some q)
    (htype : q.question_type = QuestionType.essay)
    (hstat : s.status = SessionStatus.in_progress) :
    okSat (TestController.submitAnswer test s q.question_id ans t) (fun s2 =>
      s2.answers = s.answers ++
        [{ question_id := q.question_id, selected_answer := ans, is_correct := true,
           time_spent := t, points_earned := q.points }]) := by
  have hca : TestSession.checkAnswer q ans = true := by
    unfold TestSession.checkAnswer
    rw [htype]
  unfold TestController.submitAnswer TestSession.addAnswer
  rw [if_pos hstat, hfind]
  dsimp only []
  simp only [okSat]
  rw [TestSession.preSaveRecompute_answers]
  simp [hca]

/-- C9 witness: an essay answer consisting of a single word still earns the
full 4 points. -/
theorem c9_witness :
    okSat (TestController.submitAnswer [essayQuestion] freshTestSession
      essayQuestion.question_id (JSValue.str "whatever") 9) (fun s2 =>
      s2.answers = freshTestSession.answers ++
        [{ question_id := essayQuestion.question_id,
           selected_answer := JSValue.str "whatever", is_correct := true,
           time_spent := 9, points_earned := essayQuestion.points }]) :=
  c9_essay_always_full_credit [essayQuestion] freshTestSession essayQuestion
    (JSValue.str "whatever") 9 (by decide) (by decide) (by decide)

/-- C8 counterexample: completing an in-progress test session with reason
`timeout` sets status `abandoned`, not the schema's `timeout` status. -/
theorem c8_counterexample :
    sampleTestSession.status = SessionStatus.in_progress ∧
    (TestController.completeTest sampleTestSession CompleteReason.timeout 50).status =
      SessionStatus.abandoned ∧
    SessionStatus.abandoned ≠ SessionStatus.timeout :=
  ⟨rfl, rfl, by decide⟩

/-- C8 (amended): on any session, CompleteSession maps reason `completed`
to status `completed` and any other reason — `abandoned` or `timeout` — to
status `abandoned`, and stamps the completion time; in particular the test
variant's `timeout` status is never produced by `completeTest`. -/
theorem c8_complete_status_mapping (s : TestSession) (iv : Interview)
    (reason : CompleteReason) (now : ℕ) :
    (TestController.completeTest s reason now).status =
      (if reason = CompleteReason.completed then SessionStatus.completed
        else SessionStatus.abandoned) ∧
    (TestController.completeTest s reason now).completed_at = some now ∧
    (TestController.completeTest s reason now).status ≠ SessionStatus.timeout ∧
    (InterviewController.completeInterview iv reason now).status =
      (if reason = CompleteReason.completed then InterviewStatus.completed
        else InterviewStatus.abandoned) ∧
    (InterviewController.completeInterview iv reason now).completed_at = some now := by
  refine ⟨rfl, rfl, ?_, InterviewController.completeInterview_status iv reason now,
    InterviewController.completeInterview_completed_at iv reason now⟩
  unfold TestController.completeTest
  by_cases hr : reason = CompleteReason.completed <;> simp [hr]

/-- C4 counterexample: the submitted answer `"a"` equals the
multiple-choice `correct_answer` `"A"` after trim/case-fold normalization,
yet `checkAnswer` (strict equality for multiple-choice) marks it incorrect
and the recorded attempt earns 0 of the 5 points. -/
theorem c4_counterexample :
    jsTrim (jsToLower "a") = jsTrim (jsToLower "A") ∧
    TestSession.checkAnswer mcQuestion (JSValue.str "a") = false ∧
    okSat (TestController.submitAnswer [mcQuestion] freshTestSession
      mcQuestion.question_id (JSValue.str "a") 3) (fun s2 =>
      s2.answers.map (fun a => (a.is_correct, a.points_earned)) = [(false, 0)]) :=
  ⟨by decide, by decide, okSat_of_ok (by decide)⟩

/-- C4 (amended): for every question of the test variant, scoring is
binary — the recorded attempt carries `is_correct = checkAnswer` and earns
the full point weight exactly when `checkAnswer` is true, zero otherwise,
never a fractional value — and `checkAnswer` agrees with the amended
per-kind rule `checkAnswerSpec`: the trim/case-fold normalization applies
only to fill-in-the-blank, while multiple-choice and true/false use strict
equality on the submitted value (so a mere case/whitespace variant of a
string `correct_answer` scores zero). -/
theorem c4_closed_form_binary (test : List TestQuestion) (s : TestSession)
    (q : TestQuestion) (ans : JSValue) (t : ℕ)
    (hfind : test.find? (fun x => x.question_id == q.question_id) = some q)
    (hstat : s.status = SessionStatus.in_progress) :
    okSat (TestController.submitAnswer test s q.question_id ans t) (fun s2 =>
      s2.answers = s.answers ++
        [{ question_id := q.question_id, selected_answer := ans,
           is_correct := TestSession.checkAnswer q ans, time_spent := t,
           points_earned := if TestSession.checkAnswer q ans then q.points else 0 }]) ∧
    TestSession.checkAnswer q ans = checkAnswerSpec q ans := by
  constructor
  · unfold TestController.submitAnswer TestSession.addAnswer
    rw [if_pos hstat, hfind]
    dsimp only []
    simp only [okSat]
    rw [TestSession.preSaveRecompute_answers]
  · unfold TestSession.checkAnswer checkAnswerSpec
    cases q.question_type <;> rfl

/-- C4 witness: the amended theorem applied to the multiple-choice sample
question. -/
theorem c4_witness :
    okSat (TestController.submitAnswer [mcQuestion] freshTestSession
      mcQuestion.question_id (JSValue.str "a") 3) (fun s2 =>
      s2.answers = freshTestSession.answers ++
        [{ question_id := mcQuestion.question_id, selected_answer := JSValue.str "a",
           is_correct := TestSession.checkAnswer mcQuestion (JSValue.str "a"),
           time_spent := 3,
           points_earned := if TestSession.checkAnswer mcQuestion (JSValue.str "a")
             then mcQuestion.points else 0 }]) ∧
    TestSession.checkAnswer mcQuestion (JSValue.str "a") =
      checkAnswerSpec mcQuestion (JSValue.str "a") :=
  c4_closed_form_binary [mcQuestion] freshTestSession mcQuestion (JSValue.str "a") 3
    (by decide) (by decide)

/-- C1 counterexample: a second CompleteSession call on an
already-completed test session does not return `SessionAlreadyTerminal` —
it succeeds, re-maps the status from the newly supplied reason (here
flipping `completed` to `abandoned`) and overwrites `completed_at` (100
becomes 200). -/
theorem c1_counterexample :
    completedTestSession.status = SessionStatus.completed ∧
    completedTestSession.completed_at = some 100 ∧
    (TestController.completeTest completedTestSession CompleteReason.abandoned 200).status =
      SessionStatus.abandoned ∧
    (TestController.completeTest completedTestSession CompleteReason.abandoned 200).completed_at =
      some 200 ∧
    (InterviewController.completeInterview completedInterview
      CompleteReason.abandoned 200).completed_at = some 200 :=
  ⟨rfl, rfl, rfl, rfl,
    InterviewController.completeInterview_completed_at completedInterview
      CompleteReason.abandoned 200⟩

/-- C1 (amended): once a session is in any status other than `in_progress`
(in particular any terminal status), every SubmitAnswer call fails with the
404-class not-found/not-active outcome, in both variants; however neither
variant guards CompleteSession against terminal sessions: a second
CompleteSession call succeeds, sets the status from the newly supplied
reason, and overwrites `completed_at` with the new time. -/
theorem c1_terminal_behavior (test : List TestQuestion) (s : TestSession)
    (qid : ℕ) (ans : JSValue) (t : ℕ)
    (iv : Interview) (qid2 t2 : ℕ) (ans2 : String) (sc : ℤ) (fb : QuestionFeedback)
    (reason : CompleteReason) (now now2 : ℕ)
    (hs : s.status ≠ SessionStatus.in_progress)
    (hiv : iv.status ≠ InterviewStatus.in_progress) :
    TestController.submitAnswer test s qid ans t =
      Except.error SubmitError.sessionNotFoundOrNotActive ∧
    InterviewController.submitAnswer iv qid2 ans2 t2 sc fb now =
      Except.error SubmitError.sessionNotFoundOrNotActive ∧
    (TestController.completeTest s reason now2).status =
      (if reason = CompleteReason.completed then SessionStatus.completed
        else SessionStatus.abandoned) ∧
    (TestController.completeTest s reason now2).completed_at = some now2 ∧
    (InterviewController.completeInterview iv reason now2).completed_at = some now2 := by
  refine ⟨?_, ?_, rfl, rfl,
    InterviewController.completeInterview_completed_at iv reason now2⟩
  · unfold TestController.submitAnswer
    rw [if_neg hs]
  · unfold InterviewController.submitAnswer
    rw [if_neg hiv]

/-- C1 witness: the amended theorem applied to the completed sample
sessions. -/
theorem c1_witness :
    TestController.submitAnswer sampleTest completedTestSession 1 (JSValue.bool true) 5 =
      Except.error SubmitError.sessionNotFoundOrNotActive ∧
    InterviewController.submitAnswer completedInterview 1 "hi" 7 50 emptyFeedback 3 =
      Except.error SubmitError.sessionNotFoundOrNotActive ∧
    (TestController.completeTest completedTestSession CompleteReason.timeout 200).status =
      (if CompleteReason.timeout = CompleteReason.completed then SessionStatus.completed
        else SessionStatus.abandoned) ∧
    (TestController.completeTest completedTestSession CompleteReason.timeout 200).completed_at =
      some 200 ∧
    (InterviewController.completeInterview completedInterview
      CompleteReason.timeout 200).completed_at = some 200 :=
  c1_terminal_behavior sampleTest completedTestSession 1 (JSValue.bool true) 5
    completedInterview 1 7 "hi" 50 emptyFeedback CompleteReason.timeout 3 200
    (by decide) (by decide)

/-- C5 counterexample: in the test variant, submitting an answer for a
question that already has one appends a second `UserAnswer`, so after the
call the session holds 2 recorded answers against `total_questions = 1` —
the invariant `answered_questions ≤ total_questions` fails under
re-submission. -/
theorem c5_counterexample :
    sampleTestSession.total_questions = 1 ∧
    (sampleTestSession.answers.filter (fun a => a.question_id == 1)).length = 1 ∧
    okSat (TestController.submitAnswer sampleTest sampleTestSession 1 (JSValue.str "x") 5)
      (fun s2 => s2.total_questions < s2.answers.length ∧ s2.answers.length = 2) :=
  ⟨rfl, rfl, okSat_of_ok (by decide)⟩

/-- C5 (amended): after every successful SubmitAnswer in the interview
variant the invariant holds — both the `answeredQuestions` virtual and the
persisted `metadata.session_data.answered_questions` (which the pre-save
hook recomputes from the questions array, discarding the controller's raw
increment) are at most `totalQuestions`, even on re-submission.  In the
test variant every successful SubmitAnswer appends a new answer record, so
the recorded answer count grows by one per call and re-submitting a
question can push it beyond `total_questions`. -/
theorem c5_answered_bound (iv : Interview) (qid2 : ℕ) (ans2 : String) (t2 : ℕ)
    (sc : ℤ) (fb : QuestionFeedback) (now : ℕ)
    (test : List TestQuestion) (s : TestSession) (qid : ℕ) (ans : JSValue) (t : ℕ)
    (hstat1 : iv.status = InterviewStatus.in_progress)
    (hfind1 : (iv.questions.find? (fun q => q.question_id == qid2)).isSome = true)
    (hstat2 : s.status = SessionStatus.in_progress)
    (hfind2 : (test.find? (fun q => q.question_id == qid)).isSome = true) :
    okSat (InterviewController.submitAnswer iv qid2 ans2 t2 sc fb now) (fun iv' =>
      iv'.answeredQuestions ≤ iv'.totalQuestions ∧
      iv'.metadata.session_data.answered_questions ≤ iv'.totalQuestions) ∧
    okSat (TestController.submitAnswer test s qid ans t) (fun s' =>
      s'.answers.length = s.answers.length + 1) := by
  constructor
  · obtain ⟨iv', hok⟩ := InterviewController.interviewSubmitAnswer_ok_exists hstat1 hfind1
    rw [hok]
    obtain ⟨-, -, -, -, -, -, hmeta, -⟩ := InterviewController.interviewSubmitAnswer_ok hok
    have hb : iv'.answeredQuestions ≤ iv'.totalQuestions := by
      unfold Interview.answeredQuestions Interview.totalQuestions
      exact List.length_filter_le _ _
    exact okSat_of_ok ⟨hb, by rw [hmeta]; exact hb⟩
  · obtain ⟨s', hok⟩ := TestController.testSubmitAnswer_ok_exists hstat2 hfind2
    rw [hok]
    obtain ⟨-, q, -, hans, -⟩ := TestController.testSubmitAnswer_ok hok
    refine okSat_of_ok ?_
    rw [hans]
    simp

/-- C5 witness: the amended theorem applied to the sample sessions (the
test half re-submits the already-answered question 1, growing the answer
list from 1 to 2). -/
theorem c5_witness :
    okSat (InterviewController.submitAnswer sampleInterview 1 "hello" 7 50 emptyFeedback 0)
      (fun iv' =>
        iv'.answeredQuestions ≤ iv'.totalQuestions ∧
        iv'.metadata.session_data.answered_questions ≤ iv'.totalQuestions) ∧
    okSat (TestController.submitAnswer sampleTest sampleTestSession 1 (JSValue.str "x") 5)
      (fun s' => s'.answers.length = sampleTestSession.answers.length + 1) :=
  c5_answered_bound sampleInterview 1 "hello" 7 50 emptyFeedback 0
    sampleTest sampleTestSession 1 (JSValue.str "x") 5
    (by decide) (by decide) (by decide) (by decide)

/-- C6 counterexample: in the test variant, re-submitting question 1 does
not overwrite the prior attempt — afterwards the session holds two
attempts for that question, the original and the new one. -/
theorem c6_counterexample :
    okSat (TestController.submitAnswer sampleTest sampleTestSession 1 (JSValue.str "x") 5)
      (fun s2 =>
        (s2.answers.filter (fun a => a.question_id == 1)).length = 2 ∧
        s2.answers.map (fun a => a.selected_answer) =
          [JSValue.bool true, JSValue.str "x"]) :=
  okSat_of_ok (by decide)

/-- C6 (amended): in the interview variant a re-submission overwrites the
prior attempt in place: when the session holds exactly one question with
the given id, after a successful SubmitAnswer it still holds exactly one
attempt for that id, carrying the latest answer, time taken and score, and
the question list keeps its length.  In the test variant (see the
counterexample) each submission appends a new answer record instead, so
the prior attempt is retained alongside the new one. -/
theorem c6_interview_overwrite (iv : Interview) (qid : ℕ) (q : InterviewQuestion)
    (ans : String) (t : ℕ) (sc : ℤ) (fb : QuestionFeedback) (now : ℕ)
    (hq : iv.questions.filter (fun x => x.question_id == qid) = [q])
    (hstat : iv.status = InterviewStatus.in_progress)
    (hfind : (iv.questions.find? (fun x => x.question_id == qid)).isSome = true) :
    okSat (InterviewController.submitAnswer iv qid ans t sc fb now) (fun iv' =>
      iv'.questions.filter (fun x => x.question_id == qid) =
        [{ q with user_answer := ans, time_taken := t, ai_score := sc, feedback := fb }] ∧
      iv'.questions.length = iv.questions.length) := by
  obtain ⟨iv', hok⟩ := InterviewController.interviewSubmitAnswer_ok_exists hstat hfind
  rw [hok]
  obtain ⟨-, -, hqs, -⟩ := InterviewController.interviewSubmitAnswer_ok hok
  refine okSat_of_ok ⟨?_, ?_⟩
  · rw [hqs]
    exact updateFirst_filter (fun x => x.question_id == qid)
      (fun x =>
        { x with
          user_answer := ans, time_taken := t, ai_score := sc, feedback := fb })
      (fun a => rfl) iv.questions q hq
  · rw [hqs, updateFirst_length]

/-- C6 witness: overwriting the single question of the sample interview.  -/
theorem c6_witness :
    okSat (InterviewController.submitAnswer sampleInterview 1 "a better answer" 9 72
      emptyFeedback 0) (fun iv' =>
      iv'.questions.filter (fun x => x.question_id == 1) =
        [{ sampleInterviewQuestion with
             user_answer := "a better answer", time_taken := 9, ai_score := 72,
             feedback := emptyFeedback }] ∧
      iv'.questions.length = sampleInterview.questions.length) :=
  c6_interview_overwrite sampleInterview 1 sampleInterviewQuestion "a better answer" 9 72
    emptyFeedback 0 (by decide) (by decide) (by decide)

/-- C2 counterexample: after a successful interview SubmitAnswer on the
one-question intermediate sample session (AI score 50), the aggregate
score reported to the client (`current_score`, computed by
`calculateOverallScore`) is 60, while the arithmetic mean of the
per-question scores (the `averageScore` virtual) is 50 — the reported
aggregate is the difficulty- and completion-weighted score, not the
mean. -/
theorem c2_counterexample :
    okSat (InterviewController.submitAnswer sampleInterview 1 "hello" 10 50 emptyFeedback 0)
      (fun iv' =>
        Interview.calculateOverallScore iv' = 60 ∧ Interview.averageScore iv' = 50) := by
  obtain ⟨iv', hok⟩ := @InterviewController.interviewSubmitAnswer_ok_exists sampleInterview 1 "hello"
    10 50 emptyFeedback 0 (by decide) (by decide)
  rw [hok]
  obtain ⟨-, -, hqs, -, -, hdiff, -, -⟩ := InterviewController.interviewSubmitAnswer_ok hok
  have h1 : iv'.questions.length = 1 := by
    rw [hqs]
    decide
  have h2 : Interview.answeredQuestions iv' = 1 := by
    unfold Interview.answeredQuestions
    rw [hqs]
    decide
  have h3 : totalAiScore iv' = 50 := by
    unfold totalAiScore
    rw [hqs]
    decide
  have h4 : Interview.completionRate iv' = 100 := by
    unfold Interview.completionRate Interview.totalQuestions
    rw [h2, h1]
    norm_num [jsRound]
  refine okSat_of_ok ⟨?_, ?_⟩
  · unfold Interview.calculateOverallScore
    rw [h1, h3, h4, hdiff]
    norm_num [difficultyWeight, jsRound, sampleInterview]
  · unfold Interview.averageScore
    rw [h1, h3]
    norm_num [jsRound]

/-- C2 (amended): immediately after every successful SubmitAnswer, in the
test variant the stored `score` equals the pure recomputation
`round(correct_count / total × 100)` from the recorded answers (and the
stored `correct_answers` counter equals the recount) — no drift; in the
interview variant the aggregate reported for the session is
`calculateOverallScore`, i.e. the arithmetic mean of per-question scores
over all questions multiplied by the difficulty weight and by
`completionRate / 100`, not the plain arithmetic mean. -/
theorem c2_aggregate_score (test : List TestQuestion) (s : TestSession) (qid : ℕ)
    (ans : JSValue) (t : ℕ)
    (iv : Interview) (qid2 t2 : ℕ) (ans2 : String) (sc : ℤ) (fb : QuestionFeedback) (now : ℕ)
    (hstat1 : s.status = SessionStatus.in_progress)
    (hfind1 : (test.find? (fun q => q.question_id == qid)).isSome = true)
    (hstat2 : iv.status = InterviewStatus.in_progress)
    (hfind2 : (iv.questions.find? (fun q => q.question_id == qid2)).isSome = true) :
    okSat (TestController.submitAnswer test s qid ans t) (fun s' =>
      s'.score = jsRound (((s'.answers.filter (fun a => a.is_correct)).length : ℚ) /
        (s'.total_questions : ℚ) * 100) ∧
      s'.correct_answers = (s'.answers.filter (fun a => a.is_correct)).length) ∧
    okSat (InterviewController.submitAnswer iv qid2 ans2 t2 sc fb now) (fun iv' =>
      Interview.calculateOverallScore iv' =
        jsRound (((totalAiScore iv' : ℚ) / (iv'.questions.length : ℚ)) *
          difficultyWeight iv'.difficulty * ((iv'.completionRate : ℚ) / 100))) := by
  constructor
  · obtain ⟨s', hok⟩ := TestController.testSubmitAnswer_ok_exists hstat1 hfind1
    rw [hok]
    obtain ⟨-, q, -, -, -, -, -, -, hcorr, hscore⟩ := TestController.testSubmitAnswer_ok hok
    exact okSat_of_ok ⟨hscore, hcorr⟩
  · obtain ⟨iv', hok⟩ := InterviewController.interviewSubmitAnswer_ok_exists hstat2 hfind2
    rw [hok]
    obtain ⟨-, -, hqs, -, -, -, -, -⟩ := InterviewController.interviewSubmitAnswer_ok hok
    refine okSat_of_ok ?_
    have hlen' : ¬ iv'.questions.length = 0 := by
      rw [hqs, updateFirst_length]
      have := List.length_pos_of_find?_eq_some (Option.isSome_iff_exists.mp hfind2).choose_spec
      omega
    unfold Interview.calculateOverallScore
    rw [if_neg hlen']

/-- C2 witness: the amended theorem applied to the sample sessions. -/
theorem c2_witness :
    okSat (TestController.submitAnswer sampleTest sampleTestSession 1 (JSValue.bool true) 5)
      (fun s' =>
        s'.score = jsRound (((s'.answers.filter (fun a => a.is_correct)).length : ℚ) /
          (s'.total_questions : ℚ) * 100) ∧
        s'.correct_answers = (s'.answers.filter (fun a => a.is_correct)).length) ∧
    okSat (InterviewController.submitAnswer sampleInterview 1 "hello" 10 50 emptyFeedback 0)
      (fun iv' =>
        Interview.calculateOverallScore iv' =
          jsRound (((totalAiScore iv' : ℚ) / (iv'.questions.length : ℚ)) *
            difficultyWeight iv'.difficulty * ((iv'.completionRate : ℚ) / 100))) :=
  c2_aggregate_score sampleTest sampleTestSession 1 (JSValue.bool true) 5
    sampleInterview 1 10 "hello" 50 emptyFeedback 0
    (by decide) (by decide) (by decide) (by decide)

/-- C7 counterexample: on the three-question beginner interview with one
question answered at score 95, the code's FeedbackSummary `total_score` is
10 — mean 95/3, weight 1.0, times the rounded completion percentage 33
divided by 100 — while the claim's formula with the exact completion
fraction 1/3 gives 11. -/
theorem c7_counterexample :
    (Interview.generateFeedback threeQuestionInterview).total_score = 10 ∧
    jsRound (((totalAiScore threeQuestionInterview : ℚ) /
        (threeQuestionInterview.questions.length : ℚ)) *
      difficultyWeight threeQuestionInterview.difficulty *
      ((threeQuestionInterview.answeredQuestions : ℚ) /
        (threeQuestionInterview.totalQuestions : ℚ))) = 11 := by
  have ha : Interview.answeredQuestions threeQuestionInterview = 1 := by decide
  have hl : threeQuestionInterview.questions.length = 3 := by decide
  have ht : totalAiScore threeQuestionInterview = 95 := by decide
  have hcr : Interview.completionRate threeQuestionInterview = 33 := by
    unfold Interview.completionRate Interview.totalQuestions
    rw [ha, hl]
    norm_num [jsRound]
  constructor
  · show Interview.calculateOverallScore threeQuestionInterview = 10
    unfold Interview.calculateOverallScore
    rw [hl, ht, hcr]
    norm_num [difficultyWeight, jsRound, threeQuestionInterview, sampleInterview]
  · unfold Interview.totalQuestions
    rw [ht, hl, ha]
    norm_num [difficultyWeight, jsRound, threeQuestionInterview, sampleInterview]

/-- C7 (amended): for every interview with at least one question, the
FeedbackSummary's `total_score` equals the arithmetic mean of the
per-question scores over ALL questions (unanswered ones scoring 0)
multiplied by the difficulty weight (beginner ×1.0, intermediate ×1.2,
advanced ×1.5) and by `completionRate / 100`, where `completionRate` is
the already-rounded percentage `round(answered/total × 100)` — not the
exact completion fraction `answered/total` — the product then being
rounded to the nearest integer. -/
theorem c7_total_score_formula (iv : Interview) (h : ¬ iv.questions.length = 0) :
    (Interview.generateFeedback iv).total_score =
      jsRound (((totalAiScore iv : ℚ) / (iv.questions.length : ℚ)) *
        difficultyWeight iv.difficulty *
        ((jsRound (((iv.answeredQuestions : ℚ) / (iv.totalQuestions : ℚ)) * 100) : ℚ) /
          100)) := by
  show Interview.calculateOverallScore iv = _
  unfold Interview.calculateOverallScore Interview.completionRate
  rw [if_neg h, if_neg h]

/-- C7 witness: the amended theorem applied to the three-question sample
interview. -/
theorem c7_witness :
    (Interview.generateFeedback threeQuestionInterview).total_score =
      jsRound (((totalAiScore threeQuestionInterview : ℚ) /
          (threeQuestionInterview.questions.length : ℚ)) *
        difficultyWeight threeQuestionInterview.difficulty *
        ((jsRound (((threeQuestionInterview.answeredQuestions : ℚ) /
            (threeQuestionInterview.totalQuestions : ℚ)) * 100) : ℚ) / 100)) :=
  c7_total_score_formula threeQuestionInterview (by decide)

end PrepAI
